import Mathlib

/-!
Shallow embedding of `src/channels/connection.rs` from the rust-cast
repository: the connection-lifecycle channel (`ConnectionChannel`) with its
operations `connect`, `disconnect`, `can_handle` and `parse`.

Modelling choices:
* `serde_json::Value` is modelled by the inductive `Json`; decoding of
  inbound text payloads (`serde_json::from_str`, an external library) is an
  explicit parameter `fromStr : String → Except String Json` of `parse`.
* The shared transport (`MessageManager::send`, external to this file's
  source) is an explicit parameter `t : CastMessage → Except Error Unit`;
  operations return the list of messages passed to `t` (the send trace)
  alongside the updated channel state and the `Result`.
* The lock-guarded `HashSet<String>` of connections is a duplicate-free
  `List String` with `hsInsert` as `HashSet::insert`.
-/

/-- `serde_json::Value`: a generic decoded JSON document. -/
inductive Json where
  | null : Json
  | bool (b : Bool) : Json
  | num (n : Int) : Json
  | str (s : String) : Json
  | arr (elems : List Json) : Json
  | obj (fields : List (String × Json)) : Json

/-- `Value::as_str`. -/
def Json.asStr : Json → Option String
  | .str s => some s
  | _ => none

/-- `Value::as_object` followed by `Map::get key`: look up a field of a
JSON object; `none` when the value is not an object or lacks the field. -/
def Json.getField : Json → String → Option Json
  | .obj fields, key => fields.lookup key
  | _, _ => none

mutual

/-- Modelled from the spec: a minimal JSON text encoder standing in for
`serde_json::to_string` (external library, not under the sources). Used
only on objects with fixed, escape-free string fields (§6 wire contract). -/
def Json.encode : Json → String
  | .null => "null"
  | .bool b => if b then "true" else "false"
  | .num n => toString n
  | .str s => "\"" ++ s ++ "\""
  | .arr elems => "[" ++ Json.encodeList elems ++ "]"
  | .obj fields => "\x7b" ++ Json.encodeFields fields ++ "\x7d"

/-- Comma-separated encoding of JSON array elements. -/
def Json.encodeList : List Json → String
  | [] => ""
  | [v] => Json.encode v
  | v :: rest => Json.encode v ++ "," ++ Json.encodeList rest

/-- Comma-separated encoding of JSON object fields. -/
def Json.encodeFields : List (String × Json) → String
  | [] => ""
  | [(k, v)] => "\"" ++ k ++ "\":" ++ Json.encode v
  | (k, v) :: rest => "\"" ++ k ++ "\":" ++ Json.encode v ++ "," ++ Json.encodeFields rest

end

/-- `const CHANNEL_NAMESPACE`. -/
def CHANNEL_NAMESPACE : String := "urn:x-cast:com.google.cast.tp.connection"

/-- `const CHANNEL_USER_AGENT`. -/
def CHANNEL_USER_AGENT : String := "RustCast"

/-- `const MESSAGE_TYPE_CONNECT`. -/
def MESSAGE_TYPE_CONNECT : String := "CONNECT"

/-- `const MESSAGE_TYPE_CLOSE`. -/
def MESSAGE_TYPE_CLOSE : String := "CLOSE"

/-- `CastMessagePayload`: a frame body is text or binary. -/
inductive CastMessagePayload where
  | String (s : String) : CastMessagePayload
  | Binary (bytes : List Nat) : CastMessagePayload

/-- `CastMessage`: one frame of the wire protocol. The Rust field
`namespace` is a Lean keyword, hence the quoted name. -/
structure CastMessage where
  «namespace» : String
  source : String
  destination : String
  payload : CastMessagePayload

/-- `enum ConnectionResponse`. -/
inductive ConnectionResponse where
  | Connect : ConnectionResponse
  | Close : ConnectionResponse
  | NotImplemented (typ : String) (value : Json) : ConnectionResponse

/-- Crate error type as used by this channel: `Error::Internal` appears
verbatim in the source; the variants for inbound decode failures and
transport failures are modelled from the spec (§7 error kinds), since
`errors.rs` is outside the sources here. -/
inductive Error where
  | Internal (msg : String) : Error
  | Serialization (msg : String) : Error
  | Transport (msg : String) : Error

/-- `ConnectionChannel` state: the sender identity and the lock-guarded
set of believed-connected destinations (the transport is passed to each
operation explicitly). -/
structure ConnectionChannel where
  sender : String
  connections : List String

/-- `ConnectionChannel::new`. -/
def ConnectionChannel.new (sender : String) : ConnectionChannel :=
  { sender := sender, connections := [] }

/-- `HashSet::insert`: add `d` unless already present. -/
def hsInsert (s : List String) (d : String) : List String :=
  if s.contains d then s else d :: s

/-- Modelled from the spec: `serde_json::to_string` of
`proxies::connection::ConnectionRequest` (the proxy struct is outside the
sources); wire shape per §6:
`{"type": "CONNECT"|"CLOSE", "userAgent": "<client identifier string>"}`. -/
def connectionRequestString (typ : String) : String :=
  Json.encode (Json.obj [("type", Json.str typ), ("userAgent", Json.str CHANNEL_USER_AGENT)])

/-- The CONNECT frame built by `ConnectionChannel::connect`. -/
def connectMsg (sender destination : String) : CastMessage :=
  { «namespace» := CHANNEL_NAMESPACE
    source := sender
    destination := destination
    payload := .String (connectionRequestString MESSAGE_TYPE_CONNECT) }

/-- The CLOSE frame built by `ConnectionChannel::disconnect`. -/
def closeMsg (sender destination : String) : CastMessage :=
  { «namespace» := CHANNEL_NAMESPACE
    source := sender
    destination := destination
    payload := .String (connectionRequestString MESSAGE_TYPE_CLOSE) }

/-- `ConnectionChannel::connect`, with the transport `t` explicit.
Returns the channel state after the call, the messages passed to
`MessageManager::send` during the call (in order), and the `Result`.
Mirrors the source: early success without sending when the destination is
already in `connections`; otherwise build the CONNECT frame, send it,
and insert the destination only when the send succeeded. -/
def ConnectionChannel.connect (t : CastMessage → Except Error Unit)
    (c : ConnectionChannel) (destination : String) :
    ConnectionChannel × List CastMessage × Except Error Unit :=
  if c.connections.contains destination then
    (c, [], .ok ())
  else
    match t (connectMsg c.sender destination) with
    | .error e => (c, [connectMsg c.sender destination], .error e)
    | .ok () =>
      ({ c with connections := hsInsert c.connections destination },
        [connectMsg c.sender destination], .ok ())

/-- `ConnectionChannel::disconnect`, with the transport `t` explicit.
Builds the CLOSE frame unconditionally, sends it, and returns the
transport result directly; the channel state is returned unchanged
(the source never touches `connections` here). -/
def ConnectionChannel.disconnect (t : CastMessage → Except Error Unit)
    (c : ConnectionChannel) (destination : String) :
    ConnectionChannel × List CastMessage × Except Error Unit :=
  (c, [closeMsg c.sender destination], t (closeMsg c.sender destination))

/-- `ConnectionChannel::can_handle`. -/
def ConnectionChannel.can_handle (message : CastMessage) : Bool :=
  message.«namespace» == CHANNEL_NAMESPACE

/-- The `message_type` extraction inside `ConnectionChannel::parse`:
`reply.as_object().and_then(get "type").and_then(as_str).unwrap_or("")`. -/
def messageTypeOf (reply : Json) : String :=
  ((reply.getField "type").bind Json.asStr).getD ""

/-- `ConnectionChannel::parse`, with the inbound JSON decoder `fromStr`
(`serde_json::from_str::<serde_json::Value>`, an external library)
explicit; a decode failure surfaces as the serialization error kind
(§7), a binary payload as `Error::Internal` exactly as in the source. -/
def ConnectionChannel.parse (fromStr : String → Except String Json)
    (message : CastMessage) : Except Error ConnectionResponse :=
  match message.payload with
  | .Binary _ => .error (.Internal "Binary payload is not supported!")
  | .String payload =>
    match fromStr payload with
    | .error e => .error (.Serialization e)
    | .ok reply =>
      let message_type := messageTypeOf reply
      .ok (if message_type = MESSAGE_TYPE_CONNECT then .Connect
           else if message_type = MESSAGE_TYPE_CLOSE then .Close
           else .NotImplemented message_type reply)

/-- Following the spec's words (§4.1 `parse`): read field `type` of the
decoded value as a string, defaulting to the empty string if the field is
absent or not a string. Stated independently of the source-side
`messageTypeOf`, to be compared with it. -/
def specTypeField (original : Json) : String :=
  match original with
  | .obj fields =>
    match fields.lookup "type" with
    | some (.str s) => s
    | _ => ""
  | _ => ""

/-- Following the spec's words (§4.1 `parse`): map `"CONNECT"` to
`Connect`, `"CLOSE"` to `Close`, any other type string (including empty)
to the unrecognized variant carrying both the type string and the fully
decoded original value. -/
def specClassify (original : Json) : ConnectionResponse :=
  if specTypeField original = "CONNECT" then .Connect
  else if specTypeField original = "CLOSE" then .Close
  else .NotImplemented (specTypeField original) original

/-- One caller-visible operation of the channel, for stating invariants
over arbitrary operation sequences. -/
inductive ChannelOp where
  | connect (destination : String) : ChannelOp
  | disconnect (destination : String) : ChannelOp
  | can_handle (message : CastMessage) : ChannelOp
  | parse (message : CastMessage) : ChannelOp

/-- The channel state after performing one operation. `can_handle` and
`parse` take the channel by shared reference in the source and never
touch `connections`, so they leave the state unchanged. -/
def applyOp (t : CastMessage → Except Error Unit)
    (fromStr : String → Except String Json)
    (c : ConnectionChannel) : ChannelOp → ConnectionChannel
  | .connect d => (ConnectionChannel.connect t c d).1
  | .disconnect d => (ConnectionChannel.disconnect t c d).1
  | .can_handle m => (fun _ => c) (ConnectionChannel.can_handle m)
  | .parse m => (fun _ => c) (ConnectionChannel.parse fromStr m)

/-- The channel state after a sequence of operations. -/
def runOps (t : CastMessage → Except Error Unit)
    (fromStr : String → Except String Json)
    (c : ConnectionChannel) : List ChannelOp → ConnectionChannel
  | [] => c
  | op :: rest => runOps t fromStr (applyOp t fromStr c op) rest

/-- Program counter of one caller inside `connect`, marking its atomic
sections as they appear in the source: the membership check holds the
lock only for the duration of the `if` condition's borrow, the transport
send runs with no lock held, and the insert re-acquires the lock with a
separate mutable borrow. -/
inductive ConnectPc where
  | check : ConnectPc
  | send : ConnectPc
  | insert : ConnectPc
  | done : ConnectPc

/-- Shared state seen by concurrent callers: the guarded connection set
and the list of frames passed to the transport so far. -/
structure SharedState where
  connections : List String
  trace : List CastMessage

/-- One atomic step of a caller executing `connect destination` with an
always-succeeding transport. Each constructor of `ConnectPc` is one of
the three separate atomic sections of the source's `connect`. -/
def connectStep (sender destination : String) :
    ConnectPc → SharedState → ConnectPc × SharedState
  | .check, s =>
    if s.connections.contains destination then (.done, s) else (.send, s)
  | .send, s =>
    (.insert, { s with trace := s.trace ++ [connectMsg sender destination] })
  | .insert, s =>
    (.done, { s with connections := hsInsert s.connections destination })
  | .done, s => (.done, s)

/-- Run two concurrent callers of `connect destination` under a schedule:
`false` steps caller A, `true` steps caller B. -/
def runSchedule (sender destination : String) :
    List Bool → ConnectPc × ConnectPc × SharedState → ConnectPc × ConnectPc × SharedState
  | [], st => st
  | b :: rest, (pcA, pcB, s) =>
    if b then
      let step := connectStep sender destination pcB s
      runSchedule sender destination rest (pcA, step.1, step.2)
    else
      let step := connectStep sender destination pcA s
      runSchedule sender destination rest (step.1, pcB, step.2)

/-! ### Helper lemmas -/

/-- `HashSet::insert` makes the inserted element a member. -/
theorem hsInsert_mem_self (l : List String) (d : String) : d ∈ hsInsert l d := by
  unfold hsInsert
  split
  · rename_i h; simpa using h
  · exact List.mem_cons_self d l

/-- `HashSet::insert` keeps all previous members. -/
theorem hsInsert_subset (l : List String) (d : String) : l ⊆ hsInsert l d := by
  unfold hsInsert
  split
  · exact fun x hx => hx
  · exact List.subset_cons_self _ _

/-- The source's `message_type` extraction agrees with the spec's words
(read `type` as a string, defaulting to the empty string). -/
theorem messageTypeOf_eq_specTypeField (j : Json) :
    messageTypeOf j = specTypeField j := by
  cases j with
  | null => rfl
  | bool b => rfl
  | num n => rfl
  | str s => rfl
  | arr elems => rfl
  | obj fields =>
    simp only [messageTypeOf, specTypeField, Json.getField]
    cases fields.lookup "type" with
    | none => rfl
    | some v => cases v <;> rfl

/-- One `connect` call never loses members of the connection set. -/
theorem connect_connections_superset (t : CastMessage → Except Error Unit)
    (c : ConnectionChannel) (d : String) :
    c.connections ⊆ (ConnectionChannel.connect t c d).1.connections := by
  unfold ConnectionChannel.connect
  split
  · exact fun x hx => hx
  · cases ht : t (connectMsg c.sender d) with
    | error e => exact fun x hx => hx
    | ok u => cases u; exact hsInsert_subset _ _

/-- One operation never loses members of the connection set. -/
theorem applyOp_superset (t : CastMessage → Except Error Unit)
    (f : String → Except String Json) (c : ConnectionChannel) (op : ChannelOp) :
    c.connections ⊆ (applyOp t f c op).connections := by
  cases op with
  | connect d => exact connect_connections_superset t c d
  | disconnect d => exact fun x hx => hx
  | can_handle m => exact fun x hx => hx
  | parse m => exact fun x hx => hx

/-! ### Claim theorems -/

/-- C4: `disconnect(d)` sends exactly one CLOSE frame with destination `d`
and the fixed connection namespace, regardless of whether `d` is in the
connected set, returns the transport result directly, and does not remove
`d` from the connected set. -/
theorem disconnect_sends_single_close_frame (t : CastMessage → Except Error Unit)
    (c : ConnectionChannel) (d : String) :
    ConnectionChannel.disconnect t c d
        = (c, [closeMsg c.sender d], t (closeMsg c.sender d))
      ∧ (closeMsg c.sender d).«namespace» = CHANNEL_NAMESPACE
      ∧ (closeMsg c.sender d).destination = d
      ∧ (ConnectionChannel.disconnect t c d).1.connections = c.connections :=
  ⟨rfl, rfl, rfl, rfl⟩

/-- C5: `can_handle(f)` returns true iff `f.namespace` is exactly the
string `urn:x-cast:com.google.cast.tp.connection`; any other string,
including prefix or suffix variants, yields false. (`can_handle` is a pure
function of the frame, hence has no side effects.) -/
theorem can_handle_iff_exact_namespace (m : CastMessage) :
    ConnectionChannel.can_handle m = true
      ↔ m.«namespace» = "urn:x-cast:com.google.cast.tp.connection" := by
  simp [ConnectionChannel.can_handle, CHANNEL_NAMESPACE]

/-- Witness for C5 at a concrete frame. -/
theorem can_handle_iff_exact_namespace_witness :
    ConnectionChannel.can_handle
      ⟨"urn:x-cast:com.google.cast.tp.connection", "s", "d", .String ""⟩ = true :=
  (can_handle_iff_exact_namespace _).mpr rfl

/-- C10: the result of `parse` depends only on the frame's payload; it
never reads the namespace, source or destination fields. -/
theorem parse_depends_only_on_payload (f : String → Except String Json)
    (m1 m2 : CastMessage) (h : m1.payload = m2.payload) :
    ConnectionChannel.parse f m1 = ConnectionChannel.parse f m2 := by
  unfold ConnectionChannel.parse
  rw [h]

/-- Witness for C10: two frames sharing a payload but differing in every
other field parse identically. -/
theorem parse_depends_only_on_payload_witness :
    ConnectionChannel.parse (fun s => .error s)
        ⟨"urn:x-cast:com.google.cast.tp.connection", "a", "b", .Binary [1]⟩
      = ConnectionChannel.parse (fun s => .error s)
        ⟨"urn:x-cast:some.other.namespace", "c", "d", .Binary [1]⟩ :=
  parse_depends_only_on_payload _ _ _ rfl

/-- C3: if the transport send fails during `connect(d)` for a destination
not already connected, the transport error is returned and the connected
set is unchanged (`d` is not added). -/
theorem connect_send_failure_leaves_state (t : CastMessage → Except Error Unit)
    (c : ConnectionChannel) (d : String) (e : Error)
    (hnew : c.connections.contains d = false)
    (herr : t (connectMsg c.sender d) = .error e) :
    ConnectionChannel.connect t c d = (c, [connectMsg c.sender d], .error e) := by
  have hmem : d ∉ c.connections := by simpa using hnew
  unfold ConnectionChannel.connect
  simp [hmem, herr]

/-- Witness for C3 at a concrete channel and failing transport. -/
theorem connect_send_failure_leaves_state_witness :
    ConnectionChannel.connect (fun _ => .error (.Transport "io"))
        (ConnectionChannel.new "s") "r"
      = (ConnectionChannel.new "s", [connectMsg "s" "r"], .error (.Transport "io")) :=
  connect_send_failure_leaves_state _ _ _ _ rfl rfl

/-- C1: with a succeeding transport, calling `connect(d)` twice in
sequence sends exactly one CONNECT frame: the first call sends it and
records `d`, the second call finds `d` in the connected set and returns
success immediately without invoking the transport. -/
theorem connect_twice_single_connect_frame (t : CastMessage → Except Error Unit)
    (c : ConnectionChannel) (d : String)
    (hnew : c.connections.contains d = false)
    (hok : t (connectMsg c.sender d) = .ok ()) :
    ConnectionChannel.connect t c d
        = ({ c with connections := hsInsert c.connections d },
            [connectMsg c.sender d], .ok ())
      ∧ ConnectionChannel.connect t (ConnectionChannel.connect t c d).1 d
        = ((ConnectionChannel.connect t c d).1, [], .ok ()) := by
  have hmem : d ∉ c.connections := by simpa using hnew
  have h1 : ConnectionChannel.connect t c d
      = ({ c with connections := hsInsert c.connections d },
          [connectMsg c.sender d], .ok ()) := by
    unfold ConnectionChannel.connect
    simp [hmem, hok]
  refine ⟨h1, ?_⟩
  rw [h1]
  unfold ConnectionChannel.connect
  simp [hsInsert_mem_self]

/-- Witness for C1 at a fresh channel and an always-succeeding transport. -/
theorem connect_twice_single_connect_frame_witness :
    (ConnectionChannel.connect (fun _ => .ok ()) (ConnectionChannel.new "s") "r"
        = ({ ConnectionChannel.new "s" with
              connections := hsInsert (ConnectionChannel.new "s").connections "r" },
            [connectMsg "s" "r"], .ok ()))
      ∧ (ConnectionChannel.connect (fun _ => .ok ())
            (ConnectionChannel.connect (fun _ => .ok ()) (ConnectionChannel.new "s") "r").1 "r"
          = ((ConnectionChannel.connect (fun _ => .ok ()) (ConnectionChannel.new "s") "r").1,
              [], .ok ())) :=
  connect_twice_single_connect_frame _ _ _ rfl rfl

/-- C2 evidence: the check-send-insert sequence in `connect` is NOT one
atomic section. When two callers of `connect "receiver-0"` interleave as
check, check, send, send, insert, insert (each step one of the source's
actual atomic sections), both pass the membership check and both emit a
CONNECT frame, so the trace holds two CONNECT frames for the same
destination after both callers finish. -/
theorem concurrent_connect_emits_two_frames :
    (runSchedule "sender-0" "receiver-0" [false, true, false, true, false, true]
        (ConnectPc.check, ConnectPc.check, ⟨[], []⟩)).2.2.trace
      = [connectMsg "sender-0" "receiver-0", connectMsg "sender-0" "receiver-0"]
    ∧ (runSchedule "sender-0" "receiver-0" [false, true, false, true, false, true]
        (ConnectPc.check, ConnectPc.check, ⟨[], []⟩)).1 = ConnectPc.done
    ∧ (runSchedule "sender-0" "receiver-0" [false, true, false, true, false, true]
        (ConnectPc.check, ConnectPc.check, ⟨[], []⟩)).2.1 = ConnectPc.done :=
  ⟨rfl, rfl, rfl⟩

/-- C6: on a text payload that decodes to a JSON value `j`, `parse`
returns success with the classification the spec describes: read `type`
as a string (defaulting to the empty string when absent or not a string),
map `"CONNECT"` to `Connect`, `"CLOSE"` to `Close`, and anything else to
the unrecognized variant carrying the type string and the fully decoded
original value. -/
theorem parse_decoded_json_classification (f : String → Except String Json)
    (m : CastMessage) (s : String) (j : Json)
    (hp : m.payload = .String s) (hf : f s = .ok j) :
    ConnectionChannel.parse f m = .ok (specClassify j) := by
  unfold ConnectionChannel.parse
  simp only [hp, hf]
  simp only [specClassify, messageTypeOf_eq_specTypeField]
  rfl

/-- Witness for C6 on the spec's own example, the text body
decoding to the object with fields type PING and extra 1. -/
theorem parse_decoded_json_classification_witness :
    ConnectionChannel.parse
        (fun _ => .ok (Json.obj [("type", Json.str "PING"), ("extra", Json.num 1)]))
        ⟨CHANNEL_NAMESPACE, "s", "d", .String "body"⟩
      = .ok (.NotImplemented "PING"
          (Json.obj [("type", Json.str "PING"), ("extra", Json.num 1)])) :=
  (parse_decoded_json_classification _ _ "body"
    (Json.obj [("type", Json.str "PING"), ("extra", Json.num 1)]) rfl rfl).trans rfl

/-- C7: `parse` fails exactly when the payload is binary or the text
payload fails to decode: a binary payload yields the internal-error kind,
a malformed text payload yields the serialization-error kind, and in
every other case `parse` returns a successful response. -/
theorem parse_failure_characterization (f : String → Except String Json)
    (m : CastMessage) :
    ((∃ e, ConnectionChannel.parse f m = .error e)
        ↔ ((∃ bytes, m.payload = .Binary bytes)
            ∨ (∃ s err, m.payload = .String s ∧ f s = .error err)))
    ∧ (∀ bytes, m.payload = .Binary bytes →
        ConnectionChannel.parse f m
          = .error (.Internal "Binary payload is not supported!"))
    ∧ (∀ s err, m.payload = .String s → f s = .error err →
        ConnectionChannel.parse f m = .error (.Serialization err))
    ∧ (∀ s reply, m.payload = .String s → f s = .ok reply →
        ∃ r, ConnectionChannel.parse f m = .ok r) := by
  obtain ⟨ns, src, dst, p⟩ := m
  cases p with
  | Binary bytes =>
    refine ⟨⟨fun _ => .inl ⟨bytes, rfl⟩, fun _ => ⟨_, rfl⟩⟩,
      fun _ _ => rfl, fun s err hs => ?_, fun s reply hs => ?_⟩
    all_goals exact absurd hs (by simp)
  | String s =>
    cases hf : f s with
    | error err =>
      refine ⟨⟨fun _ => .inr ⟨s, err, rfl, hf⟩,
          fun _ => ⟨.Serialization err, by simp [ConnectionChannel.parse, hf]⟩⟩,
        fun bytes hb => absurd hb (by simp),
        fun s2 err2 hs2 hf2 => ?_, fun s2 reply hs2 hok => ?_⟩
      · injection hs2 with h; subst h
        rw [hf] at hf2
        injection hf2 with h2; subst h2
        simp [ConnectionChannel.parse, hf]
      · injection hs2 with h; subst h
        rw [hf] at hok
        exact absurd hok (by simp)
    | ok reply =>
      refine ⟨⟨fun he => ?_, fun hcases => ?_⟩,
        fun bytes hb => absurd hb (by simp),
        fun s2 err2 hs2 hf2 => ?_, fun s2 reply2 hs2 hok => ?_⟩
      · obtain ⟨e, he⟩ := he
        simp [ConnectionChannel.parse, hf] at he
      · rcases hcases with ⟨bytes, hb⟩ | ⟨s2, err, hs2, hf2⟩
        · exact absurd hb (by simp)
        · injection hs2 with h; subst h
          rw [hf] at hf2
          exact absurd hf2 (by simp)
      · injection hs2 with h; subst h
        rw [hf] at hf2
        exact absurd hf2 (by simp)
      · refine ⟨if messageTypeOf reply = MESSAGE_TYPE_CONNECT then .Connect
            else if messageTypeOf reply = MESSAGE_TYPE_CLOSE then .Close
            else .NotImplemented (messageTypeOf reply) reply, ?_⟩
        simp [ConnectionChannel.parse, hf]

/-- Witness for C7: a binary payload fails with the internal-error kind. -/
theorem parse_failure_characterization_witness :
    ConnectionChannel.parse (fun s => .error s)
        ⟨CHANNEL_NAMESPACE, "s", "d", .Binary [0]⟩
      = .error (.Internal "Binary payload is not supported!") :=
  (parse_failure_characterization (fun s => .error s)
    ⟨CHANNEL_NAMESPACE, "s", "d", .Binary [0]⟩).2.1 [0] rfl

/-- C8: the connected set only ever gains members: after any sequence of
channel operations it is a superset of its earlier value, and `connect`
is the only operation that mutates it (`disconnect`, `can_handle` and
`parse` leave the channel state unchanged). -/
theorem connected_only_gains_members (t : CastMessage → Except Error Unit)
    (f : String → Except String Json) (c : ConnectionChannel)
    (ops : List ChannelOp) :
    c.connections ⊆ (runOps t f c ops).connections
    ∧ (∀ d, (ConnectionChannel.disconnect t c d).1 = c)
    ∧ (∀ m, applyOp t f c (ChannelOp.can_handle m) = c)
    ∧ (∀ m, applyOp t f c (ChannelOp.parse m) = c) := by
  refine ⟨?_, fun d => rfl, fun m => rfl, fun m => rfl⟩
  induction ops generalizing c with
  | nil => exact fun x hx => hx
  | cons op rest ih =>
    exact List.Subset.trans (applyOp_superset t f c op) (ih _)

/-- Witness for C8: an earlier member survives a disconnect and a
connect for other destinations. -/
theorem connected_only_gains_members_witness :
    "a" ∈ (runOps (fun _ => .ok ()) (fun s => .error s)
        { sender := "s", connections := ["a"] }
        [ChannelOp.disconnect "b", ChannelOp.connect "c"]).connections :=
  (connected_only_gains_members (fun _ => .ok ()) (fun s => .error s)
    { sender := "s", connections := ["a"] }
    [ChannelOp.disconnect "b", ChannelOp.connect "c"]).1 (by simp)

/-- C9: every frame emitted by `connect` or `disconnect` carries the
fixed connection namespace, the channel's sender identity as source, the
argument as destination, and a text payload that is the JSON object with
a `type` field (`"CONNECT"` for connect, `"CLOSE"` for disconnect) and
the fixed `userAgent` client identifier. -/
theorem emitted_frames_wire_shape (t : CastMessage → Except Error Unit)
    (c : ConnectionChannel) (d : String) :
    (∀ m ∈ (ConnectionChannel.connect t c d).2.1,
        m.«namespace» = CHANNEL_NAMESPACE ∧ m.source = c.sender
          ∧ m.destination = d
          ∧ m.payload = .String (Json.encode (Json.obj
              [("type", Json.str "CONNECT"),
                ("userAgent", Json.str CHANNEL_USER_AGENT)])))
    ∧ (∀ m ∈ (ConnectionChannel.disconnect t c d).2.1,
        m.«namespace» = CHANNEL_NAMESPACE ∧ m.source = c.sender
          ∧ m.destination = d
          ∧ m.payload = .String (Json.encode (Json.obj
              [("type", Json.str "CLOSE"),
                ("userAgent", Json.str CHANNEL_USER_AGENT)]))) := by
  constructor
  · intro m hm
    have hm' : m = connectMsg c.sender d := by
      unfold ConnectionChannel.connect at hm
      split at hm
      · simp at hm
      · cases ht : t (connectMsg c.sender d) with
        | error e => rw [ht] at hm; simpa using hm
        | ok u => cases u; rw [ht] at hm; simpa using hm
    subst hm'
    exact ⟨rfl, rfl, rfl, rfl⟩
  · intro m hm
    have hm' : m = closeMsg c.sender d := by
      simpa [ConnectionChannel.disconnect] using hm
    subst hm'
    exact ⟨rfl, rfl, rfl, rfl⟩

/-- Witness for C9 on the CLOSE frame of a concrete disconnect call. -/
theorem emitted_frames_wire_shape_witness :
    (closeMsg "s" "d").«namespace» = CHANNEL_NAMESPACE
    ∧ (closeMsg "s" "d").source = "s"
    ∧ (closeMsg "s" "d").destination = "d"
    ∧ (closeMsg "s" "d").payload = .String (Json.encode (Json.obj
        [("type", Json.str "CLOSE"), ("userAgent", Json.str CHANNEL_USER_AGENT)])) :=
  (emitted_frames_wire_shape (fun _ => .ok ()) (ConnectionChannel.new "s") "d").2
    (closeMsg "s" "d") (by simp [ConnectionChannel.disconnect, ConnectionChannel.new])
